import Mathlib

set_option maxRecDepth 8192

/-!
Shallow embedding of the query-safety pipeline of the University Course
Registration Management System (src/main.py): the syntax guard
`ai_sql_guard`, the static role policy filter `is_sql_safe_for_role`, the
post-execution row filter `post_filter_results_for_role`, and the
pre-generation prefix of the `ai_query` endpoint.

Python strings are modelled as Lean `String` / `List Char`; SQLite cell
values as the inductive `SqlValue`; result rows as association lists from
column name to value. Python's `str.lower`, `str.strip`, substring tests
(`in`) and the `\bword\b` case-insensitive regex searches are given
explicit executable models below.
-/

/-- Model of Python `str.lower()` (ASCII case folding, which is all the
source's patterns use). -/
def strToLower (s : String) : String := ⟨s.data.map Char.toLower⟩

/-- Model of Python `str.upper()`. -/
def strToUpper (s : String) : String := ⟨s.data.map Char.toUpper⟩

/-- Model of Python `str.strip()` with no argument: drop leading and
trailing whitespace. -/
def pyStrip (l : List Char) : List Char :=
  ((l.dropWhile Char.isWhitespace).reverse.dropWhile Char.isWhitespace).reverse

/-- Model of Python `str.strip(";")`: drop leading and trailing runs of
semicolons. -/
def pyStripSemis (l : List Char) : List Char :=
  ((l.dropWhile (fun c => c = ';')).reverse.dropWhile (fun c => c = ';')).reverse

/-- Model of Python's substring test `w in s`. -/
def substringOf (w : List Char) : List Char → Bool
  | [] => w.isEmpty
  | c :: rest => w.isPrefixOf (c :: rest) || substringOf w rest

/-- Word character in the sense of the regex `\b` boundary: `[A-Za-z0-9_]`. -/
def isWordChar (c : Char) : Bool := c.isAlphanum || c = '_'

/-- Left word boundary holds when the preceding character (if any) is not a
word character. -/
def boundaryBefore : Option Char → Bool
  | none => true
  | some c => !isWordChar c

/-- Right word boundary holds when the following character (if any) is not a
word character. -/
def boundaryAfter : List Char → Bool
  | [] => true
  | c :: _ => !isWordChar c

/-- Scanner for `re.search(r"\bw\b", s)`: `prev` is the character just
before the current position. -/
def containsWholeWordAux (w : List Char) (prev : Option Char) : List Char → Bool
  | [] => false
  | c :: rest =>
    (boundaryBefore prev && w.isPrefixOf (c :: rest)
      && boundaryAfter ((c :: rest).drop w.length))
    || containsWholeWordAux w (some c) rest

/-- Whole-word occurrence of `w` in `s` (regex `\bw\b`). -/
def containsWholeWord (w s : List Char) : Bool := containsWholeWordAux w none s

/-- Case-insensitive whole-word occurrence, modelling
`re.search(rf"\bw\b", s, flags=re.IGNORECASE)` by folding both sides to
lower case (all patterns in the source are ASCII). -/
def containsWholeWordCI (w s : String) : Bool :=
  containsWholeWord (w.data.map Char.toLower) (s.data.map Char.toLower)

/-! ### ai_sql_guard (src/main.py lines 72-113) -/

/-- Result dictionary of `ai_sql_guard`: `message` and `sql` keys are only
present on the blocked path. -/
structure GuardResult where
  blocked : Bool
  message : Option String
  sql : Option String
deriving DecidableEq

/-- The forbidden DML/DDL keyword list of `ai_sql_guard`, in source order. -/
def forbidden : List String :=
  ["insert", "update", "delete", "create", "drop", "alter", "truncate"]

/-- Message returned when the candidate does not start with `select`. -/
def read_only_guard_message : String :=
  "❌ The AI Assistant is **read-only**.\nOnly SELECT queries are allowed. Please use the admin interface for INSERT / UPDATE / DELETE."

/-- Message returned when a forbidden keyword is found in the candidate. -/
def keyword_message (word : String) : String :=
  "❌ The AI Assistant cannot run `" ++ strToUpper word ++ "` commands.\nUse the admin dashboard for write or schema operations."

/-- Message returned on the multi-statement check. -/
def multi_statement_message : String :=
  "❌ Multiple SQL statements are not allowed in the AI Assistant."

/-- The `sql_clean` local of `ai_sql_guard`: `sql.lower().strip()`. -/
def sqlCleanOf (sql : String) : List Char := pyStrip ((strToLower sql).data)

/-- Embedding of `ai_sql_guard` (src/main.py lines 72-113): block
non-SELECT, then the first forbidden keyword occurring as a substring,
then a semicolon left after stripping semicolons from both ends. -/
def ai_sql_guard (sql : String) : GuardResult :=
  let sql_clean := sqlCleanOf sql
  if !("select".data.isPrefixOf sql_clean) then
    ⟨true, some read_only_guard_message, some sql⟩
  else
    match forbidden.find? (fun w => substringOf w.data sql_clean) with
    | some w => ⟨true, some (keyword_message w), some sql⟩
    | none =>
      if substringOf [';'] (pyStripSemis sql_clean) then
        ⟨true, some multi_statement_message, some sql⟩
      else ⟨false, none, none⟩

/-! ### is_sql_safe_for_role (src/main.py lines 146-183)

`SENSITIVE_TABLES = {"login_credentials"}` and
`SENSITIVE_COLUMNS_ALWAYS = {"password"}` are singleton sets, so the two
`for` loops are single checks. `SENSITIVE_COLUMNS_BY_ROLE` gives
`{"salary"}` for role `student` and the empty set for every other role
(including unrecognized ones, via `.get(role_lower, set())`). -/

/-- The student-specific denial message (`student_denied_message` helper in
the source). -/
def student_denied_message : String :=
  "❌ Access Denied: As a student, you are not authorized to view this information. You can only ask about your own courses, grades, schedule, credits, or advisor."

/-- Generic denial message for a sensitive table. -/
def table_not_allowed_message (tbl : String) : String :=
  "Access to table \x27" ++ tbl ++ "\x27 is not allowed through the AI assistant."

/-- Generic denial message for an always-sensitive column. -/
def column_not_allowed_message (col : String) : String :=
  "Access to column \x27" ++ col ++ "\x27 is not allowed through the AI assistant."

/-- Denial message for a role-specific sensitive column (non-student
branch of check 3; unreachable under the current rule set but kept for
fidelity). -/
def role_column_message (role col : String) : String :=
  "Users with role \x27" ++ role ++ "\x27 are not allowed to query column \x27" ++ col ++ "\x27."

/-- Embedding of `is_sql_safe_for_role` (src/main.py lines 146-183).
Returns `some message` when the SQL is disallowed for the role, `none`
when it is OK. The regex searches run on the original `sql` with
IGNORECASE, modelled by `containsWholeWordCI`. The `username` parameter is
unused in the source as well. -/
def is_sql_safe_for_role (sql : String) (role : String) (_username : String) :
    Option String :=
  let role_lower := strToLower role
  if containsWholeWordCI "login_credentials" sql then
    if role_lower = "student" then some student_denied_message
    else some (table_not_allowed_message "login_credentials")
  else if containsWholeWordCI "password" sql then
    if role_lower = "student" then some student_denied_message
    else some (column_not_allowed_message "password")
  else if role_lower = "student" && containsWholeWordCI "salary" sql then
    some student_denied_message
  else none

/-! ### post_filter_results_for_role (src/main.py lines 186-233) -/

/-- A SQLite cell value as seen through `sqlite3.Row`: text, integer/real
collapsed to `vInt` (any non-string), or NULL. Only the string/non-string
distinction matters to the filter. -/
inductive SqlValue
  | vStr (s : String)
  | vInt (n : Int)
  | vNull
deriving DecidableEq

/-- `isinstance(val, str)`. -/
def SqlValue.isStr : SqlValue → Bool
  | SqlValue.vStr _ => true
  | _ => false

/-- Python equality `val == u` where `u` is a `str`: true only for an
equal string, false for any non-string value. -/
def SqlValue.pyEqStr : SqlValue → String → Bool
  | SqlValue.vStr s, u => s = u
  | _, _ => false

/-- Python `val.startswith(p)` for a string value; false on non-strings
(the source only calls it after an `isinstance` check). -/
def SqlValue.strStartsWith : SqlValue → String → Bool
  | SqlValue.vStr s, p => p.data.isPrefixOf s.data
  | _, _ => false

/-- A result row: mapping from column name to value (`dict(row)` in the
source), modelled as an association list queried by `List.lookup`. -/
abbrev Row := List (String × SqlValue)

/-- The student branch of the filtering loop: `keep` starts true, is set
false when a generic `ID` is present with a string value different from
the username, and set false when `s_ID` is present with a value different
from the username (no `isinstance` check on `s_ID` in the source). -/
def student_keep (username : String) (r : Row) : Bool :=
  let keep := true
  let keep :=
    match List.lookup "ID" r with
    | some val => if val.isStr && !(val.pyEqStr username) then false else keep
    | none => keep
  let keep :=
    match List.lookup "s_ID" r with
    | some val => if !(val.pyEqStr username) then false else keep
    | none => keep
  keep

/-- The teacher branch of the filtering loop: drop a row when `ID` or
`i_ID` holds a string starting with `"T"` that differs from the username. -/
def teacher_keep (username : String) (r : Row) : Bool :=
  let keep := true
  let keep :=
    match List.lookup "ID" r with
    | some val =>
      if val.isStr && val.strStartsWith "T" && !(val.pyEqStr username) then false else keep
    | none => keep
  let keep :=
    match List.lookup "i_ID" r with
    | some val =>
      if val.isStr && val.strStartsWith "T" && !(val.pyEqStr username) then false else keep
    | none => keep
  keep

/-- The per-row `keep` verdict of the loop body for a given lowercased
role; roles other than student and teacher never set `keep` to false. -/
def row_keep (role_l : String) (username : String) (r : Row) : Bool :=
  if role_l = "student" then student_keep username r
  else if role_l = "teacher" then teacher_keep username r
  else true

/-- Embedding of `post_filter_results_for_role` (src/main.py lines
186-233): admin returns the input unchanged; otherwise the loop appends
exactly the rows whose `keep` verdict is true, in order (`dict(row)` is an
identity in this model). -/
def post_filter_results_for_role (results : List Row) (role : String)
    (username : String) : List Row :=
  let role_l := strToLower role
  if role_l = "admin" then results
  else results.filter (row_keep role_l username)

/-! ### Pre-generation prefix of ai_query (src/main.py lines 1416-1446) -/

/-- The JSON object returned by the `ai_query` endpoint. -/
structure AIQueryResult where
  status : String
  response : String
  sql_query : String
deriving DecidableEq

/-- The `dangerous_keywords` list of `ai_query`, in source order. -/
def dangerous_keywords : List String :=
  ["drop", "delete", "update", "insert", "alter", "create", "truncate"]

/-- Refusal returned when the natural-language question contains a
dangerous keyword. -/
def read_only_limit_message : String :=
  "❌ AI Assistant is limited to **read-only** access.\nWrite operations such as CREATE, UPDATE, DELETE, or ALTER are not allowed.\nPlease use the admin dashboard for changes."

/-- Response returned when the Gemini client is not initialized. -/
def ai_disabled_message : String :=
  "AI is currently disabled due to missing API key or connection error."

/-- Embedding of the pre-generation prefix of `ai_query` (src/main.py
lines 1422-1446), the part the claims about it concern: first the
dangerous-keyword substring check on the lowercased question, then the
client-availability check. `some result` is an early return before any
schema introspection or generation call; `none` means the pipeline
proceeds to generation. -/
def ai_query_early (query : String) (clientAvailable : Bool) :
    Option AIQueryResult :=
  let query_lower := (strToLower query).data
  if dangerous_keywords.any (fun kw => substringOf kw.data query_lower) then
    some ⟨"fail", read_only_limit_message, "N/A"⟩
  else if !clientAvailable then
    some ⟨"fail", ai_disabled_message, "N/A"⟩
  else
    none

/-! ## Theorems -/

/-- C7: for role admin, `post_filter_results_for_role` is a no-op: the
output is the very input list, same rows in the same order, contents
unchanged. -/
theorem admin_row_filter_noop (results : List Row) (username : String) :
    post_filter_results_for_role results "admin" username = results := rfl

/-- C8: the row filter is idempotent: for every role, username and list of
result rows, applying `post_filter_results_for_role` twice yields the same
result as applying it once. -/
theorem row_filter_idempotent (results : List Row) (role username : String) :
    post_filter_results_for_role (post_filter_results_for_role results role username)
        role username
      = post_filter_results_for_role results role username := by
  unfold post_filter_results_for_role
  by_cases h : strToLower role = "admin"
  · simp [h]
  · simp [h, List.filter_filter]

/-- C9: a role whose lowercase form is neither admin, student nor teacher
is treated like admin by `post_filter_results_for_role`: every input row
is returned unchanged. -/
theorem unknown_role_filter_noop (results : List Row) (role username : String)
    (h1 : strToLower role ≠ "admin") (h2 : strToLower role ≠ "student")
    (h3 : strToLower role ≠ "teacher") :
    post_filter_results_for_role results role username = results := by
  have hk : row_keep (strToLower role) username = fun _ => true := by
    funext r
    simp [row_keep, h2, h3]
  simp [post_filter_results_for_role, h1, hk]

/-- Witness for C9 at the concrete role "guest". -/
theorem unknown_role_filter_noop_witness :
    post_filter_results_for_role [[("ID", SqlValue.vStr "x")]] "guest" "alice"
      = [[("ID", SqlValue.vStr "x")]] :=
  unknown_role_filter_noop [[("ID", SqlValue.vStr "x")]] "guest" "alice"
    (by decide) (by decide) (by decide)

/-- C10: whenever the lowercased question contains one of the dangerous
keywords as a substring (also inside a longer word), `ai_query` returns
the read-only refusal with status fail and the `sql_query` placeholder,
and it does so whether or not the generation client is available, i.e.
before the provider-availability check and before any generation call. -/
theorem ai_query_blocks_dangerous_question (query : String) (clientAvailable : Bool)
    (h : dangerous_keywords.any
          (fun kw => substringOf kw.data (strToLower query).data) = true) :
    ai_query_early query clientAvailable
      = some ⟨"fail", read_only_limit_message, "N/A"⟩ := by
  simp [ai_query_early, h]

/-- Witness for C10: the keyword "update" hides inside "updated", and the
refusal fires even though the client is unavailable. -/
theorem ai_query_blocks_dangerous_question_witness :
    ai_query_early "Was anything updated?" false
      = some ⟨"fail", read_only_limit_message, "N/A"⟩ :=
  ai_query_blocks_dangerous_question "Was anything updated?" false (by decide)

/-- C5 counterexample: with the client unavailable, a question containing
the word "delete" is answered with the read-only refusal, not the fixed
AI-disabled message, so the disabled message is not returned regardless of
question content. -/
theorem ai_disabled_counterexample :
    ai_query_early "please delete my enrollment" false
        = some ⟨"fail", read_only_limit_message, "N/A"⟩
      ∧ read_only_limit_message ≠ ai_disabled_message := by
  constructor
  · decide
  · decide

/-- C5 (amended): whenever the generation client is unavailable and the
lowercased question contains none of the dangerous keywords as a
substring, `ai_query` returns status fail with the fixed AI-disabled
message and `sql_query` = "N/A". -/
theorem ai_query_disabled_without_client (query : String)
    (h : dangerous_keywords.any
          (fun kw => substringOf kw.data (strToLower query).data) = false) :
    ai_query_early query false = some ⟨"fail", ai_disabled_message, "N/A"⟩ := by
  simp [ai_query_early, h]

/-- Witness for C5 (amended) at a harmless question. -/
theorem ai_query_disabled_without_client_witness :
    ai_query_early "show my grades" false
      = some ⟨"fail", ai_disabled_message, "N/A"⟩ :=
  ai_query_disabled_without_client "show my grades" (by decide)

/-- C1 counterexample: a row whose "ID" column holds the non-string value
5 — which is not equal to the caller's username "alice" — is kept by the
student row filter, so the filter does not remove every row whose identity
column differs from the caller's username. -/
theorem student_row_filter_counterexample :
    post_filter_results_for_role [[("ID", SqlValue.vInt 5)]] "student" "alice"
        = [[("ID", SqlValue.vInt 5)]]
      ∧ (SqlValue.vInt 5).pyEqStr "alice" = false := by
  constructor
  · decide
  · decide

/-- C1 (amended): for role student, the row filter removes every row whose
"ID" column holds a string different from the caller's username and every
row whose "s_ID" column holds any value different from the caller's
username (rows whose "ID" holds a non-string value are not removed on that
account), and every row containing neither identity column passes through
unchanged. -/
theorem student_row_filter_scopes_rows (results : List Row) (username : String) :
    (∀ r ∈ results,
        ((∃ s, List.lookup "ID" r = some (SqlValue.vStr s) ∧ s ≠ username) ∨
         (∃ v, List.lookup "s_ID" r = some v ∧ v.pyEqStr username = false)) →
        r ∉ post_filter_results_for_role results "student" username) ∧
    (∀ r ∈ results, List.lookup "ID" r = none → List.lookup "s_ID" r = none →
        r ∈ post_filter_results_for_role results "student" username) := by
  have hpost : post_filter_results_for_role results "student" username
      = results.filter (student_keep username) := rfl
  rw [hpost]
  constructor
  · intro r _ hbad hmem
    have hkeep : student_keep username r = true := (List.mem_filter.mp hmem).2
    rcases hbad with ⟨s, hID, hne⟩ | ⟨v, hsID, hv⟩
    · rw [student_keep, hID] at hkeep
      cases hsID : List.lookup "s_ID" r with
      | none =>
        simp [hsID, SqlValue.isStr, SqlValue.pyEqStr, hne] at hkeep
      | some v =>
        cases hv : v.pyEqStr username <;>
          simp [hsID, hv, SqlValue.isStr, SqlValue.pyEqStr, hne] at hkeep
    · rw [student_keep, hsID] at hkeep
      simp [hv] at hkeep
  · intro r hr hID hsID
    refine List.mem_filter.mpr ⟨hr, ?_⟩
    rw [student_keep, hID, hsID]

/-- Witness for C1 (amended): a row owned by "bob" is removed for the
student "alice". -/
theorem student_row_filter_scopes_rows_witness :
    [("ID", SqlValue.vStr "bob")] ∉
      post_filter_results_for_role [[("ID", SqlValue.vStr "bob")]] "student" "alice" :=
  (student_row_filter_scopes_rows [[("ID", SqlValue.vStr "bob")]] "alice").1
    [("ID", SqlValue.vStr "bob")] (by decide)
    (Or.inl ⟨"bob", by decide, by decide⟩)

/-- C2: any SQL referencing the table login_credentials or the column
password as a whole word (case-insensitively) is rejected by
`is_sql_safe_for_role` for every role: the result is a message, the
message is the student-specific scope message exactly when the role
lowercases to student and one of the generic messages otherwise, and a
reference to the sensitive table is reported by the table message even
when a password reference is present too (table check runs first). -/
theorem is_sql_safe_rejects_credentials (sql role username : String)
    (h : containsWholeWordCI "login_credentials" sql = true ∨
         containsWholeWordCI "password" sql = true) :
    (is_sql_safe_for_role sql role username).isSome = true ∧
    (strToLower role = "student" →
      is_sql_safe_for_role sql role username = some student_denied_message) ∧
    (strToLower role ≠ "student" →
      is_sql_safe_for_role sql role username
          = some (table_not_allowed_message "login_credentials") ∨
      is_sql_safe_for_role sql role username
          = some (column_not_allowed_message "password")) ∧
    (containsWholeWordCI "login_credentials" sql = true →
      is_sql_safe_for_role sql role username
        = if strToLower role = "student" then some student_denied_message
          else some (table_not_allowed_message "login_credentials")) := by
  by_cases hl : containsWholeWordCI "login_credentials" sql = true
  · refine ⟨?_, ?_, ?_, ?_⟩
    · simp [is_sql_safe_for_role, hl]
      split <;> simp
    · intro hrole
      simp [is_sql_safe_for_role, hl, hrole]
    · intro hrole
      left
      simp [is_sql_safe_for_role, hl, hrole]
    · intro _
      simp [is_sql_safe_for_role, hl]
  · have hp : containsWholeWordCI "password" sql = true := by
      rcases h with h | h
      · exact absurd h hl
      · exact h
    refine ⟨?_, ?_, ?_, ?_⟩
    · simp [is_sql_safe_for_role, hl, hp]
      split <;> simp
    · intro hrole
      simp [is_sql_safe_for_role, hl, hp, hrole]
    · intro hrole
      right
      simp [is_sql_safe_for_role, hl, hp, hrole]
    · intro hcon
      exact absurd hcon hl

/-- Witness for C2: a query touching both the password column and the
credentials table, for a teacher, draws the generic table message. -/
theorem is_sql_safe_rejects_credentials_witness :
    (is_sql_safe_for_role "SELECT Password FROM login_credentials" "teacher" "t1").isSome
        = true ∧
    (strToLower "teacher" = "student" →
      is_sql_safe_for_role "SELECT Password FROM login_credentials" "teacher" "t1"
        = some student_denied_message) ∧
    (strToLower "teacher" ≠ "student" →
      is_sql_safe_for_role "SELECT Password FROM login_credentials" "teacher" "t1"
          = some (table_not_allowed_message "login_credentials") ∨
      is_sql_safe_for_role "SELECT Password FROM login_credentials" "teacher" "t1"
          = some (column_not_allowed_message "password")) ∧
    (containsWholeWordCI "login_credentials" "SELECT Password FROM login_credentials"
        = true →
      is_sql_safe_for_role "SELECT Password FROM login_credentials" "teacher" "t1"
        = if strToLower "teacher" = "student" then some student_denied_message
          else some (table_not_allowed_message "login_credentials")) :=
  is_sql_safe_rejects_credentials "SELECT Password FROM login_credentials"
    "teacher" "t1" (Or.inl (by decide))

/-- C3 counterexample: in "select 1;;" a semicolon occurs beyond the
single optional trailing terminator (the text still contains one after
dropping the last character), yet `ai_sql_guard` does not block it: the
strip-based check tolerates any run of trailing semicolons. -/
theorem guard_semicolon_counterexample :
    "select 1;;".data = "select 1;".data ++ [';'] ∧
    substringOf [';'] "select 1;".data = true ∧
    (ai_sql_guard "select 1;;").blocked = false := by
  refine ⟨?_, ?_, ?_⟩
  · decide
  · decide
  · decide

/-- C3 (amended): for every candidate whose cleaned (trimmed, lowercased)
text begins with "select" and contains no forbidden keyword as a
substring, if a semicolon survives stripping semicolons from both ends of
the cleaned text, then `ai_sql_guard` blocks with the multi-statement
message. -/
theorem guard_blocks_inner_semicolon (sql : String)
    (h1 : "select".data.isPrefixOf (sqlCleanOf sql) = true)
    (h2 : ∀ w ∈ forbidden, substringOf w.data (sqlCleanOf sql) = false)
    (h3 : substringOf [';'] (pyStripSemis (sqlCleanOf sql)) = true) :
    ai_sql_guard sql = ⟨true, some multi_statement_message, some sql⟩ := by
  have hfind : forbidden.find? (fun w => substringOf w.data (sqlCleanOf sql)) = none := by
    rw [List.find?_eq_none]
    intro w hw
    simp [h2 w hw]
  simp [ai_sql_guard, h1, hfind, h3]

/-- Witness for C3 (amended): two chained SELECT statements are blocked as
multi-statement. -/
theorem guard_blocks_inner_semicolon_witness :
    ai_sql_guard "select a; select b"
      = ⟨true, some multi_statement_message, some "select a; select b"⟩ :=
  guard_blocks_inner_semicolon "select a; select b" (by decide) (by decide) (by decide)

/-- A whole-word occurrence is in particular a substring occurrence. -/
theorem substringOf_of_containsWholeWordAux (w : List Char) :
    ∀ (prev : Option Char) (s : List Char),
      containsWholeWordAux w prev s = true → substringOf w s = true := by
  intro prev s
  induction s generalizing prev with
  | nil => simp [containsWholeWordAux]
  | cons c rest ih =>
    intro h
    rw [containsWholeWordAux] at h
    rcases (Bool.or_eq_true _ _).mp h with h | h
    · have hpre : w.isPrefixOf (c :: rest) = true := by
        rcases (Bool.and_eq_true _ _).mp h with ⟨h', _⟩
        exact ((Bool.and_eq_true _ _).mp h').2
      simp [substringOf, hpre]
    · simp [substringOf, ih (some c) h]

/-- A whole-word occurrence is in particular a substring occurrence. -/
theorem substringOf_of_containsWholeWord (w s : List Char)
    (h : containsWholeWord w s = true) : substringOf w s = true :=
  substringOf_of_containsWholeWordAux w none s h

/-- C6 counterexample: "truncate table student" contains the forbidden
keyword truncate as a whole word, and the guard does block it, but with
the generic read-only message (the non-SELECT check fires first), not with
a message citing TRUNCATE. -/
theorem guard_keyword_counterexample :
    containsWholeWord "truncate".data (sqlCleanOf "truncate table student") = true ∧
    ai_sql_guard "truncate table student"
        = ⟨true, some read_only_guard_message, some "truncate table student"⟩ ∧
    read_only_guard_message ≠ keyword_message "truncate" := by
  refine ⟨?_, ?_, ?_⟩
  · decide
  · decide
  · decide

/-- C6 (amended): for every candidate whose cleaned (trimmed, lowercased)
text begins with "select", if some forbidden keyword occurs in the cleaned
text as a whole word, `ai_sql_guard` blocks it citing a forbidden keyword
that occurs in the text — the first one in the fixed list order. -/
theorem guard_blocks_keywords_in_select (sql w : String)
    (hw : w ∈ forbidden)
    (h1 : "select".data.isPrefixOf (sqlCleanOf sql) = true)
    (h2 : containsWholeWord w.data (sqlCleanOf sql) = true) :
    ∃ w2 ∈ forbidden, substringOf w2.data (sqlCleanOf sql) = true ∧
      ai_sql_guard sql = ⟨true, some (keyword_message w2), some sql⟩ := by
  have hsub : substringOf w.data (sqlCleanOf sql) = true :=
    substringOf_of_containsWholeWord _ _ h2
  have hsome : (forbidden.find? (fun x => substringOf x.data (sqlCleanOf sql))).isSome := by
    rw [List.find?_isSome]
    exact ⟨w, hw, hsub⟩
  obtain ⟨w2, hfind⟩ := Option.isSome_iff_exists.mp hsome
  have hp : substringOf w2.data (sqlCleanOf sql) = true := by
    have := List.find?_some hfind
    simpa using this
  refine ⟨w2, List.mem_of_find?_eq_some hfind, hp, ?_⟩
  simp [ai_sql_guard, h1, hfind]

/-- Witness for C6 (amended): "select update" carries the whole word
update and is blocked citing it. -/
theorem guard_blocks_keywords_in_select_witness :
    ∃ w2 ∈ forbidden, substringOf w2.data (sqlCleanOf "select update") = true ∧
      ai_sql_guard "select update"
        = ⟨true, some (keyword_message w2), some "select update"⟩ :=
  guard_blocks_keywords_in_select "select update" "update"
    (by decide) (by decide) (by decide)

/-- The source's heuristic for an instructor-owning identity value: a
string starting with "T" (see the teacher branch of
`post_filter_results_for_role`). -/
def identifiesInstructor (v : SqlValue) : Bool := v.isStr && v.strStartsWith "T"

/-- One update step of the teacher loop body: the verdict stays `b`
unless the inspected value identifies an instructor other than the
caller. -/
theorem teacher_step (username : String) (v : SqlValue) (b : Bool) :
    ((if v.isStr && v.strStartsWith "T" && !(v.pyEqStr username) then false else b) = true)
      ↔ (b = true ∧ (identifiesInstructor v = true → v.pyEqStr username = true)) := by
  cases hb : v.isStr <;> cases hs : v.strStartsWith "T" <;>
    cases hp : v.pyEqStr username <;>
    simp [identifiesInstructor, hb, hs, hp]

/-- The teacher keep verdict holds exactly when every value found under
the columns "ID" or "i_ID" that identifies an instructor equals the
caller's username. -/
theorem teacher_keep_iff (username : String) (r : Row) :
    teacher_keep username r = true ↔
      ∀ v : SqlValue,
        (List.lookup "ID" r = some v ∨ List.lookup "i_ID" r = some v) →
        identifiesInstructor v = true → v.pyEqStr username = true := by
  rw [teacher_keep]
  cases h1 : List.lookup "ID" r with
  | none =>
    cases h2 : List.lookup "i_ID" r with
    | none => simp
    | some v2 =>
      simp only [teacher_step, true_and]
      constructor
      · intro hP v hv
        rcases hv with hv | hv
        · exact Option.noConfusion hv
        · injection hv with hv
          subst hv
          exact hP
      · intro hall
        exact hall v2 (Or.inr rfl)
  | some v1 =>
    cases h2 : List.lookup "i_ID" r with
    | none =>
      simp only [teacher_step, true_and]
      constructor
      · intro hP v hv
        rcases hv with hv | hv
        · injection hv with hv
          subst hv
          exact hP
        · exact Option.noConfusion hv
      · intro hall
        exact hall v1 (Or.inl rfl)
    | some v2 =>
      simp only [teacher_step, true_and]
      constructor
      · rintro ⟨hP1, hP2⟩ v hv
        rcases hv with hv | hv
        · injection hv with hv
          subst hv
          exact hP1
        · injection hv with hv
          subst hv
          exact hP2
      · intro hall
        exact ⟨hall v1 (Or.inl rfl), hall v2 (Or.inr rfl)⟩

/-- C4: for role teacher, the row filter keeps every row none of whose
"ID"/"i_ID" values identifies an instructor other than the caller
(actor-neutral and student-scoped rows in particular), and a row carrying
an instructor-identifying value under "ID" or "i_ID" is retained only when
that value equals the caller's username. -/
theorem teacher_row_filter_scopes_instructor_rows (results : List Row)
    (username : String) :
    (∀ r ∈ results,
        (∀ v : SqlValue,
            (List.lookup "ID" r = some v ∨ List.lookup "i_ID" r = some v) →
            identifiesInstructor v = true → v.pyEqStr username = true) →
        r ∈ post_filter_results_for_role results "teacher" username) ∧
    (∀ r ∈ results, r ∈ post_filter_results_for_role results "teacher" username →
        ∀ v : SqlValue,
          (List.lookup "ID" r = some v ∨ List.lookup "i_ID" r = some v) →
          identifiesInstructor v = true → v.pyEqStr username = true) := by
  have hpost : post_filter_results_for_role results "teacher" username
      = results.filter (teacher_keep username) := rfl
  rw [hpost]
  constructor
  · intro r hr hgood
    exact List.mem_filter.mpr ⟨hr, (teacher_keep_iff username r).mpr hgood⟩
  · intro r _ hmem
    exact (teacher_keep_iff username r).mp (List.mem_filter.mp hmem).2

/-- Witness for C4: the teacher "T1" keeps an advisor row whose
instructor column is their own identity. -/
theorem teacher_row_filter_scopes_instructor_rows_witness :
    [("i_ID", SqlValue.vStr "T1")] ∈
      post_filter_results_for_role [[("i_ID", SqlValue.vStr "T1")]] "teacher" "T1" :=
  (teacher_row_filter_scopes_instructor_rows [[("i_ID", SqlValue.vStr "T1")]] "T1").1
    [("i_ID", SqlValue.vStr "T1")] (by decide)
    (by
      intro v hv _
      rcases hv with hv | hv
      · rw [show List.lookup "ID" [("i_ID", SqlValue.vStr "T1")]
              = (none : Option SqlValue) from by decide] at hv
        cases hv
      · rw [show List.lookup "i_ID" [("i_ID", SqlValue.vStr "T1")]
              = some (SqlValue.vStr "T1") from by decide] at hv
        cases hv
        decide)
